import Mathlib

/-!
Verification development for `samples/count_tokens.js`.

The script is a flat sequence of eight demonstration routines driven by
`runAll`.  Each routine constructs SDK client handles from the `API_KEY`
environment variable, issues awaited SDK calls (token counting, content
generation, file upload/retrieval/deletion, cache creation/deletion), and
logs response fields to standard output.  The only control flow beyond
straight-line sequencing is a poll loop in
`tokensMultimodalVideoAudioFileApi` that sleeps 10 seconds between
re-queries of a remote file's processing state, and a single conditional
`throw` if that state is `FAILED`.

Embedding.  The JavaScript is shallowly embedded as a step-indexed state
monad `M α := St → St × Res α` over an append-only event trace:

* every observable action (client construction, SDK call, `console.log`,
  `process.stdout.write`, `fs.readFileSync`, sleeping) appends an `Event`;
* an `Env` oracle supplies everything the outside world chooses: the
  value of `process.env.API_KEY`, the result of each SDK call (indexed by
  a running call counter), the remote file state returned by each
  `getFile`, and whether a given SDK call raises (`sdkFail`), which models
  network/authentication/malformed-response failures thrown by the SDK;
* `Res` distinguishes normal completion (`ok`), an error thrown by code in
  this file (`thrown`), an uncaught SDK exception (`sdkErr`), and fuel
  exhaustion of the step-indexed poll loop (`pending`, meaning the run is
  still inside the loop after the given number of iterations);
* `getFile` results are modelled by the only field the script ever reads,
  `file.state`; upload results by the `name`/`uri`/`mimeType` fields read
  from `uploadResult.file`; token-count and generation results by the
  fields the script logs.
-/

namespace CountTokensSample

/-! ## Data model, effect events and the run monad -/

/-- FileState as imported from `@google/generative-ai/server`. -/
inductive FileState : Type
  | stateUnspecified
  | processing
  | active
  | failed
deriving DecidableEq, Repr

/-- The fields of `uploadResult.file` that the script reads. -/
structure FileInfo : Type where
  name : String
  uri : String
  mimeType : String
deriving DecidableEq, Repr

/-- The fields of a `countTokens` response that the script reads or logs:
`totalTokens`, `contentTokens[0]` (logged opaquely), and the rendering of
the whole response object (for `console.log(result)`). -/
structure CountResult : Type where
  totalTokens : Nat
  contentTokens0 : String
  raw : String
deriving DecidableEq, Repr

/-- A `generateContent`/`sendMessage` response; the script only logs its
`usageMetadata` field, kept opaque. -/
structure GenResult : Type where
  usageMetadata : String
deriving DecidableEq, Repr

/-- A `cacheManager.create` response; the script only reads `name`. -/
structure CacheResult : Type where
  name : String
deriving DecidableEq, Repr

/-- A content part of the wire contract: `{text}`, `{inlineData}` or
`{fileData}`. -/
inductive Part : Type
  | text (s : String)
  | inlineData (data : String) (mimeType : String)
  | fileData (fileUri : String) (mimeType : String)
deriving DecidableEq, Repr

/-- A role-tagged message turn. -/
structure ContentTurn : Type where
  role : String
  parts : List Part
deriving DecidableEq, Repr

/-- A function declaration passed in `tools`. -/
structure FunctionDecl : Type where
  name : String
deriving DecidableEq, Repr

/-- The `generateContentRequest` shape used by the script. -/
structure GenerateContentRequest : Type where
  contents : List ContentTurn
  systemInstruction : Option ContentTurn := none
  cachedContent : Option String := none
  tools : Option (List FunctionDecl) := none
deriving DecidableEq, Repr

/-- An element of an array argument to `countTokens`/`generateContent`:
a bare string or a part object. -/
inductive ReqItem : Type
  | str (s : String)
  | part (p : Part)
deriving DecidableEq, Repr

/-- The argument shapes the script passes to `countTokens` and
`generateContent`: a bare string, an array of strings/parts, or a
`generateContentRequest` object. -/
inductive SdkReq : Type
  | ofText (s : String)
  | ofItems (items : List ReqItem)
  | ofGenRequest (r : GenerateContentRequest)
deriving DecidableEq, Repr

/-- Observable actions of the script, in program order.  SDK calls record
their request payloads; `getHistory` also records the history value the
SDK handed back (it is the one SDK response whose payload the script
forwards wholesale).  `fsWrite` is in the vocabulary of possible local
effects but is never performed by the script. -/
inductive Event : Type
  | newGenAI (apiKey : Option String)
  | getGenerativeModel (model : String)
  | newFileManager (apiKey : Option String)
  | newCacheManager (apiKey : Option String)
  | fsRead (path : String)
  | fsWrite (path : String)
  | uploadFile (path : String) (mimeType : String)
  | getFile (name : String)
  | deleteFile (name : String)
  | countTokens (req : SdkReq)
  | generateContent (req : SdkReq)
  | startChat (history : List ContentTurn)
  | getHistory (result : List ContentTurn)
  | sendMessage (msg : String)
  | cacheCreate (model : String) (ttlSeconds : Nat) (contents : List ContentTurn)
  | cacheDelete (name : String)
  | consoleLog (s : String)
  | stdoutWrite (s : String)
  | sleep (ms : Nat)
deriving DecidableEq, Repr

/-- The oracle for everything the outside world decides: the environment
variable, local file contents, and each SDK call's outcome.  SDK results
are indexed by a running counter of awaited SDK calls, so each call of a
run consults a fresh oracle entry. -/
structure Env : Type where
  apiKey : Option String
  dirname : String
  fileBase64 : String → String
  sdkFail : Nat → Bool
  fileState : Nat → FileState
  uploadResult : Nat → FileInfo
  countResult : Nat → CountResult
  genResult : Nat → GenResult
  chatHistory : List ContentTurn
  cacheResult : Nat → CacheResult

/-- `const mediaPath = __dirname + "/media";` -/
def mediaPath (env : Env) : String := env.dirname ++ "/media"

/-- Result of running a routine: normal completion, an `Error` thrown by
code in this file, an uncaught SDK exception (tagged with the index of
the failing call), or fuel exhaustion inside the poll loop. -/
inductive Res (α : Type) : Type
  | ok (a : α)
  | thrown (msg : String)
  | sdkErr (idx : Nat)
  | pending
deriving DecidableEq, Repr

/-- Accumulated run state: the event trace so far and the number of
awaited SDK calls made so far. -/
structure St : Type where
  events : List Event
  calls : Nat
deriving DecidableEq, Repr

/-- The run monad: a state transformer producing a result status. -/
def M (α : Type) : Type := St → St × Res α

/-- Return. -/
def pureM {α : Type} (a : α) : M α := fun s => (s, Res.ok a)

/-- Sequencing of awaited steps.  A thrown error, an SDK exception, or a
still-pending loop stops the rest of the routine: the script has no
`try`/`catch`, so nothing downstream runs once a step fails. -/
def bindM {α β : Type} (m : M α) (f : α → M β) : M β := fun s =>
  match m s with
  | (s', Res.ok a) => f a s'
  | (s', Res.thrown msg) => (s', Res.thrown msg)
  | (s', Res.sdkErr n) => (s', Res.sdkErr n)
  | (s', Res.pending) => (s', Res.pending)

/-- A local, non-failing observable action (constructor call, logging,
sleeping, local file read). -/
def emit (e : Event) : M Unit := fun s =>
  (⟨s.events ++ [e], s.calls⟩, Res.ok ())

/-- An awaited SDK call: records its event, consumes one oracle index, and
either raises (uncaught, per `env.sdkFail`) or returns the oracle's
result for that index. -/
def sdkCall {α : Type} (env : Env) (e : Event) (result : Nat → α) : M α := fun s =>
  if env.sdkFail s.calls then
    (⟨s.events ++ [e], s.calls + 1⟩, Res.sdkErr s.calls)
  else
    (⟨s.events ++ [e], s.calls + 1⟩, Res.ok (result s.calls))

/-- `throw new Error(msg)`. -/
def throwErr {α : Type} (msg : String) : M α := fun s => (s, Res.thrown msg)

/-- Prompt used by `tokensTextOnly` (and reused in
`tokensSystemInstruction`). -/
def foxPrompt : String := "The quick brown fox jumps over the lazy dog."

/-- `tokensTextOnly` (lines 31-60). -/
def tokensTextOnly (env : Env) : M Unit :=
  bindM (emit (Event.newGenAI env.apiKey)) fun _ =>
  bindM (emit (Event.getGenerativeModel "gemini-1.5-flash")) fun _ =>
  bindM (sdkCall env (Event.countTokens (SdkReq.ofText foxPrompt)) env.countResult)
    fun countResult =>
  bindM (emit (Event.consoleLog (toString countResult.totalTokens))) fun _ =>
  bindM (emit (Event.consoleLog countResult.contentTokens0)) fun _ =>
  bindM (sdkCall env (Event.generateContent (SdkReq.ofText foxPrompt)) env.genResult)
    fun generateResult =>
  emit (Event.consoleLog generateResult.usageMetadata)

/-- The literal chat history passed to `startChat` in `tokensChat`. -/
def chatInitialHistory : List ContentTurn :=
  [⟨"user", [Part.text "Hi my name is Bob"]⟩,
   ⟨"model", [Part.text "Hi Bob!"]⟩]

/-- `tokensChat` (lines 62-100).  `chat.getHistory()` is awaited first and
its result is forwarded unmodified as the `contents` of the
`countTokens` request. -/
def tokensChat (env : Env) : M Unit :=
  bindM (emit (Event.newGenAI env.apiKey)) fun _ =>
  bindM (emit (Event.getGenerativeModel "gemini-1.5-flash")) fun _ =>
  bindM (emit (Event.startChat chatInitialHistory)) fun _ =>
  bindM (sdkCall env (Event.getHistory env.chatHistory) (fun _ => env.chatHistory))
    fun history =>
  bindM (sdkCall env
      (Event.countTokens (SdkReq.ofGenRequest { contents := history }))
      env.countResult)
    fun countResult =>
  bindM (emit (Event.consoleLog (toString countResult.totalTokens))) fun _ =>
  bindM (sdkCall env
      (Event.sendMessage
        "In one sentence, explain how a computer works to a young child.")
      env.genResult)
    fun chatResult =>
  emit (Event.consoleLog chatResult.usageMetadata)

/-- `fileToGenerativePart` (lines 111-118), hoisted from its nesting
inside `tokensMultimodalImageInline`: reads a local file and wraps its
base64 rendering in an `inlineData` part.  `env.fileBase64 path` stands
for `Buffer.from(fs.readFileSync(path)).toString("base64")`. -/
def fileToGenerativePart (env : Env) (path : String) (mimeType : String) : M Part :=
  bindM (emit (Event.fsRead path)) fun _ =>
  pureM (Part.inlineData (env.fileBase64 path) mimeType)

/-- Prompt used by the two image routines. -/
def imagePrompt : String := "Tell me about this image."

/-- `tokensMultimodalImageInline` (lines 102-143). -/
def tokensMultimodalImageInline (env : Env) : M Unit :=
  bindM (emit (Event.newGenAI env.apiKey)) fun _ =>
  bindM (emit (Event.getGenerativeModel "gemini-1.5-flash")) fun _ =>
  bindM (fileToGenerativePart env (mediaPath env ++ "/jetpack.jpg") "image/jpeg")
    fun imagePart =>
  bindM (sdkCall env
      (Event.countTokens
        (SdkReq.ofItems [ReqItem.str imagePrompt, ReqItem.part imagePart]))
      env.countResult)
    fun countResult =>
  bindM (emit (Event.consoleLog (toString countResult.totalTokens))) fun _ =>
  bindM (sdkCall env
      (Event.generateContent
        (SdkReq.ofItems [ReqItem.str imagePrompt, ReqItem.part imagePart]))
      env.genResult)
    fun generateResult =>
  emit (Event.consoleLog generateResult.usageMetadata)

/-- `tokensMultimodalImageFileApi` (lines 145-189).  The `imagePart` is a
`fileData` object whose `fileUri`/`mimeType` are copied verbatim from
`uploadResult.file`. -/
def tokensMultimodalImageFileApi (env : Env) : M Unit :=
  bindM (emit (Event.newFileManager env.apiKey)) fun _ =>
  bindM (sdkCall env
      (Event.uploadFile (mediaPath env ++ "/jetpack.jpg") "image/jpeg")
      env.uploadResult)
    fun uploadResult =>
  bindM (emit (Event.newGenAI env.apiKey)) fun _ =>
  bindM (emit (Event.getGenerativeModel "gemini-1.5-flash")) fun _ =>
  bindM (sdkCall env
      (Event.countTokens
        (SdkReq.ofItems [ReqItem.str imagePrompt,
          ReqItem.part (Part.fileData uploadResult.uri uploadResult.mimeType)]))
      env.countResult)
    fun countResult =>
  bindM (emit (Event.consoleLog (toString countResult.totalTokens))) fun _ =>
  bindM (sdkCall env
      (Event.generateContent
        (SdkReq.ofItems [ReqItem.str imagePrompt,
          ReqItem.part (Part.fileData uploadResult.uri uploadResult.mimeType)]))
      env.genResult)
    fun generateResult =>
  bindM (emit (Event.consoleLog generateResult.usageMetadata)) fun _ =>
  sdkCall env (Event.deleteFile uploadResult.name) (fun _ => ())

/-- The poll loop of `tokensMultimodalVideoAudioFileApi` (lines 205-211):
while the last fetched state is `PROCESSING`, write a progress dot, sleep
10 seconds, and fetch the file again.  `fuel` bounds how many iterations
are unfolded; running out of fuel while still processing yields
`Res.pending` (the real loop would simply still be running). -/
def pollLoop (env : Env) (name : String) : Nat → FileState → M FileState
  | 0, st =>
      if st = FileState.processing then fun s => (s, Res.pending)
      else pureM st
  | fuel + 1, st =>
      if st = FileState.processing then
        bindM (emit (Event.stdoutWrite ".")) fun _ =>
        bindM (emit (Event.sleep 10000)) fun _ =>
        bindM (sdkCall env (Event.getFile name) env.fileState) fun newState =>
        pollLoop env name fuel newState
      else pureM st

/-- Prompt used by the video routine. -/
def videoPrompt : String := "Tell me about this video."

/-- `tokensMultimodalVideoAudioFileApi` (lines 191-251): upload, fetch the
file once, poll while `PROCESSING`, throw if the final state is `FAILED`,
otherwise count tokens, generate, and delete the uploaded file. -/
def tokensMultimodalVideoAudioFileApi (env : Env) (fuel : Nat) : M Unit :=
  bindM (emit (Event.newFileManager env.apiKey)) fun _ =>
  bindM (sdkCall env
      (Event.uploadFile (mediaPath env ++ "/Big_Buck_Bunny.mp4") "video/mp4")
      env.uploadResult)
    fun uploadVideoResult =>
  bindM (sdkCall env (Event.getFile uploadVideoResult.name) env.fileState)
    fun file0 =>
  bindM (emit (Event.stdoutWrite "processing video")) fun _ =>
  bindM (pollLoop env uploadVideoResult.name fuel file0) fun file =>
  bindM (if file = FileState.failed then throwErr "Video processing failed."
         else emit (Event.stdoutWrite "\n")) fun _ =>
  bindM (emit (Event.newGenAI env.apiKey)) fun _ =>
  bindM (emit (Event.getGenerativeModel "gemini-1.5-flash")) fun _ =>
  bindM (sdkCall env
      (Event.countTokens
        (SdkReq.ofItems [ReqItem.str videoPrompt,
          ReqItem.part (Part.fileData uploadVideoResult.uri uploadVideoResult.mimeType)]))
      env.countResult)
    fun countResult =>
  bindM (emit (Event.consoleLog (toString countResult.totalTokens))) fun _ =>
  bindM (sdkCall env
      (Event.generateContent
        (SdkReq.ofItems [ReqItem.str videoPrompt,
          ReqItem.part (Part.fileData uploadVideoResult.uri uploadVideoResult.mimeType)]))
      env.genResult)
    fun generateResult =>
  bindM (emit (Event.consoleLog generateResult.usageMetadata)) fun _ =>
  sdkCall env (Event.deleteFile uploadVideoResult.name) (fun _ => ())

/-- The literal `contents` of the cache created by `tokensCachedContent`,
as a function of the upload response whose `uri`/`mimeType` it copies. -/
def cacheContents (u : FileInfo) : List ContentTurn :=
  [⟨"user", [Part.text "Here\x27s the Apollo 11 transcript:"]⟩,
   ⟨"user", [Part.fileData u.uri u.mimeType]⟩]

/-- Prompt used by `tokensCachedContent`. -/
def cachePrompt : String := "Please give a short summary of this file."

/-- `tokensCachedContent` (lines 253-323): upload a text file, create a
cache referencing it, count tokens against the cache, generate, and
delete the cache.  No `deleteFile` appears anywhere in this routine. -/
def tokensCachedContent (env : Env) : M Unit :=
  bindM (emit (Event.newFileManager env.apiKey)) fun _ =>
  bindM (sdkCall env
      (Event.uploadFile (mediaPath env ++ "/a11.txt") "text/plain")
      env.uploadResult)
    fun uploadResult =>
  bindM (emit (Event.newCacheManager env.apiKey)) fun _ =>
  bindM (sdkCall env
      (Event.cacheCreate "models/gemini-1.5-flash-001" 600 (cacheContents uploadResult))
      env.cacheResult)
    fun cacheResult =>
  bindM (emit (Event.newGenAI env.apiKey)) fun _ =>
  bindM (emit (Event.getGenerativeModel "models/gemini-1.5-flash")) fun _ =>
  bindM (sdkCall env
      (Event.countTokens (SdkReq.ofGenRequest
        { contents := [⟨"user", [Part.text cachePrompt]⟩],
          cachedContent := some cacheResult.name }))
      env.countResult)
    fun result =>
  bindM (emit (Event.consoleLog (toString result.totalTokens))) fun _ =>
  bindM (sdkCall env (Event.generateContent (SdkReq.ofText cachePrompt)) env.genResult)
    fun generateResult =>
  bindM (emit (Event.consoleLog generateResult.usageMetadata)) fun _ =>
  sdkCall env (Event.cacheDelete cacheResult.name) (fun _ => ())

/-- `tokensSystemInstruction` (lines 325-356). -/
def tokensSystemInstruction (env : Env) : M Unit :=
  bindM (emit (Event.newGenAI env.apiKey)) fun _ =>
  bindM (emit (Event.getGenerativeModel "models/gemini-1.5-flash")) fun _ =>
  bindM (sdkCall env
      (Event.countTokens (SdkReq.ofGenRequest
        { contents := [⟨"user", [Part.text foxPrompt]⟩],
          systemInstruction :=
            some ⟨"system", [Part.text "You are a cat. Your name is Neko."]⟩ }))
      env.countResult)
    fun result =>
  emit (Event.consoleLog result.raw)

/-- The literal function declarations of `tokensTools`. -/
def toolDecls : List FunctionDecl :=
  [⟨"add"⟩, ⟨"subtract"⟩, ⟨"multiply"⟩, ⟨"divide"⟩]

/-- Prompt used by `tokensTools`. -/
def mittensPrompt : String :=
  "I have 57 cats, each owns 44 mittens, how many mittens is that in total?"

/-- `tokensTools` (lines 358-398). -/
def tokensTools (env : Env) : M Unit :=
  bindM (emit (Event.newGenAI env.apiKey)) fun _ =>
  bindM (emit (Event.getGenerativeModel "models/gemini-1.5-flash")) fun _ =>
  bindM (sdkCall env
      (Event.countTokens (SdkReq.ofGenRequest
        { contents := [⟨"user", [Part.text mittensPrompt]⟩],
          tools := some toolDecls }))
      env.countResult)
    fun result =>
  emit (Event.consoleLog result.raw)

/-- `runAll` (lines 400-412): the eight routines awaited in textual
order.  The `fuel` bound is threaded to the video routine's poll loop. -/
def runAll (env : Env) (fuel : Nat) : M Unit :=
  bindM (tokensTextOnly env) fun _ =>
  bindM (tokensChat env) fun _ =>
  bindM (tokensMultimodalImageInline env) fun _ =>
  bindM (tokensMultimodalImageFileApi env) fun _ =>
  bindM (tokensMultimodalVideoAudioFileApi env fuel) fun _ =>
  bindM (tokensCachedContent env) fun _ =>
  bindM (tokensSystemInstruction env) fun _ =>
  tokensTools env

/-- The event trace of a whole run started from an empty state. -/
def runTrace (env : Env) (fuel : Nat) : List Event :=
  ((runAll env fuel) ⟨[], 0⟩).1.events

/-- The result status of a whole run started from an empty state. -/
def runStatus (env : Env) (fuel : Nat) : Res Unit :=
  ((runAll env fuel) ⟨[], 0⟩).2

/-! ## Expected happy-path traces

Each `...Trace env c` is the list of events the corresponding routine
produces when started with SDK-call counter `c` and no SDK call fails.
The traces are functions of the oracle `env` and the counter only: the
routines read nothing from previously accumulated local state. -/

/-- The events of `j` iterations of the poll loop: each iteration writes a
progress dot, sleeps 10 seconds, and re-queries the file. -/
def pollTrace (name : String) : Nat → List Event
  | 0 => []
  | j + 1 =>
      Event.stdoutWrite "." :: Event.sleep 10000 :: Event.getFile name ::
        pollTrace name j

/-- Events of `tokensTextOnly` (2 SDK calls). -/
def textOnlyTrace (env : Env) (c : Nat) : List Event :=
  [Event.newGenAI env.apiKey,
   Event.getGenerativeModel "gemini-1.5-flash",
   Event.countTokens (SdkReq.ofText foxPrompt),
   Event.consoleLog (toString (env.countResult c).totalTokens),
   Event.consoleLog (env.countResult c).contentTokens0,
   Event.generateContent (SdkReq.ofText foxPrompt),
   Event.consoleLog (env.genResult (c + 1)).usageMetadata]

/-- Events of `tokensChat` (3 SDK calls). -/
def chatTrace (env : Env) (c : Nat) : List Event :=
  [Event.newGenAI env.apiKey,
   Event.getGenerativeModel "gemini-1.5-flash",
   Event.startChat chatInitialHistory,
   Event.getHistory env.chatHistory,
   Event.countTokens (SdkReq.ofGenRequest { contents := env.chatHistory }),
   Event.consoleLog (toString (env.countResult (c + 1)).totalTokens),
   Event.sendMessage "In one sentence, explain how a computer works to a young child.",
   Event.consoleLog (env.genResult (c + 2)).usageMetadata]

/-- Events of `tokensMultimodalImageInline` (2 SDK calls). -/
def imageInlineTrace (env : Env) (c : Nat) : List Event :=
  [Event.newGenAI env.apiKey,
   Event.getGenerativeModel "gemini-1.5-flash",
   Event.fsRead (mediaPath env ++ "/jetpack.jpg"),
   Event.countTokens (SdkReq.ofItems [ReqItem.str imagePrompt,
     ReqItem.part (Part.inlineData (env.fileBase64 (mediaPath env ++ "/jetpack.jpg"))
       "image/jpeg")]),
   Event.consoleLog (toString (env.countResult c).totalTokens),
   Event.generateContent (SdkReq.ofItems [ReqItem.str imagePrompt,
     ReqItem.part (Part.inlineData (env.fileBase64 (mediaPath env ++ "/jetpack.jpg"))
       "image/jpeg")]),
   Event.consoleLog (env.genResult (c + 1)).usageMetadata]

/-- Events of `tokensMultimodalImageFileApi` (4 SDK calls). -/
def imageFileTrace (env : Env) (c : Nat) : List Event :=
  [Event.newFileManager env.apiKey,
   Event.uploadFile (mediaPath env ++ "/jetpack.jpg") "image/jpeg",
   Event.newGenAI env.apiKey,
   Event.getGenerativeModel "gemini-1.5-flash",
   Event.countTokens (SdkReq.ofItems [ReqItem.str imagePrompt,
     ReqItem.part (Part.fileData (env.uploadResult c).uri (env.uploadResult c).mimeType)]),
   Event.consoleLog (toString (env.countResult (c + 1)).totalTokens),
   Event.generateContent (SdkReq.ofItems [ReqItem.str imagePrompt,
     ReqItem.part (Part.fileData (env.uploadResult c).uri (env.uploadResult c).mimeType)]),
   Event.consoleLog (env.genResult (c + 2)).usageMetadata,
   Event.deleteFile (env.uploadResult c).name]

/-- Events of `tokensCachedContent` (5 SDK calls). -/
def cachedTrace (env : Env) (c : Nat) : List Event :=
  [Event.newFileManager env.apiKey,
   Event.uploadFile (mediaPath env ++ "/a11.txt") "text/plain",
   Event.newCacheManager env.apiKey,
   Event.cacheCreate "models/gemini-1.5-flash-001" 600 (cacheContents (env.uploadResult c)),
   Event.newGenAI env.apiKey,
   Event.getGenerativeModel "models/gemini-1.5-flash",
   Event.countTokens (SdkReq.ofGenRequest
     { contents := [⟨"user", [Part.text cachePrompt]⟩],
       cachedContent := some (env.cacheResult (c + 1)).name }),
   Event.consoleLog (toString (env.countResult (c + 2)).totalTokens),
   Event.generateContent (SdkReq.ofText cachePrompt),
   Event.consoleLog (env.genResult (c + 3)).usageMetadata,
   Event.cacheDelete (env.cacheResult (c + 1)).name]

/-- Events of `tokensSystemInstruction` (1 SDK call). -/
def systemInstructionTrace (env : Env) (c : Nat) : List Event :=
  [Event.newGenAI env.apiKey,
   Event.getGenerativeModel "models/gemini-1.5-flash",
   Event.countTokens (SdkReq.ofGenRequest
     { contents := [⟨"user", [Part.text foxPrompt]⟩],
       systemInstruction :=
         some ⟨"system", [Part.text "You are a cat. Your name is Neko."]⟩ }),
   Event.consoleLog (env.countResult c).raw]

/-- Events of `tokensTools` (1 SDK call). -/
def toolsTrace (env : Env) (c : Nat) : List Event :=
  [Event.newGenAI env.apiKey,
   Event.getGenerativeModel "models/gemini-1.5-flash",
   Event.countTokens (SdkReq.ofGenRequest
     { contents := [⟨"user", [Part.text mittensPrompt]⟩],
       tools := some toolDecls }),
   Event.consoleLog (env.countResult c).raw]

/-- Events of `tokensMultimodalVideoAudioFileApi` before and including the
initial `getFile`, up to entering the poll loop. -/
def videoPrefixTrace (env : Env) (c : Nat) : List Event :=
  [Event.newFileManager env.apiKey,
   Event.uploadFile (mediaPath env ++ "/Big_Buck_Bunny.mp4") "video/mp4",
   Event.getFile (env.uploadResult c).name,
   Event.stdoutWrite "processing video"]

/-- Request payload sent to both `countTokens` and `generateContent` by the
video routine. -/
def videoReq (env : Env) (c : Nat) : SdkReq :=
  SdkReq.ofItems [ReqItem.str videoPrompt,
    ReqItem.part (Part.fileData (env.uploadResult c).uri (env.uploadResult c).mimeType)]

/-- Events of the video routine after the poll loop exits in a non-failed
state (`j` is the number of loop iterations). -/
def videoSuffixTrace (env : Env) (c j : Nat) : List Event :=
  [Event.stdoutWrite "\n",
   Event.newGenAI env.apiKey,
   Event.getGenerativeModel "gemini-1.5-flash",
   Event.countTokens (videoReq env c),
   Event.consoleLog (toString (env.countResult (c + 2 + j)).totalTokens),
   Event.generateContent (videoReq env c),
   Event.consoleLog (env.genResult (c + 3 + j)).usageMetadata,
   Event.deleteFile (env.uploadResult c).name]

/-- Full trace of the video routine on the success path. -/
def videoSuccessTrace (env : Env) (c j : Nat) : List Event :=
  videoPrefixTrace env c ++ pollTrace (env.uploadResult c).name j ++
    videoSuffixTrace env c j

/-- Full trace of the video routine on the failure path: the throw happens
right after the loop, so nothing after it — in particular no
`deleteFile` — is ever emitted. -/
def videoFailTrace (env : Env) (c j : Nat) : List Event :=
  videoPrefixTrace env c ++ pollTrace (env.uploadResult c).name j

/-! ## Sequential composition of the eight routines

Each `after...` function is the state transformer of one routine on the
happy path: it appends that routine's trace — a function of the oracle and
of the routine's own starting SDK-call counter only, never of the events
accumulated by earlier routines — and advances the counter. -/

def afterTextOnly (env : Env) (s : St) : St :=
  ⟨s.events ++ textOnlyTrace env s.calls, s.calls + 2⟩

def afterChat (env : Env) (s : St) : St :=
  ⟨s.events ++ chatTrace env s.calls, s.calls + 3⟩

def afterImageInline (env : Env) (s : St) : St :=
  ⟨s.events ++ imageInlineTrace env s.calls, s.calls + 2⟩

def afterImageFile (env : Env) (s : St) : St :=
  ⟨s.events ++ imageFileTrace env s.calls, s.calls + 4⟩

def afterVideo (env : Env) (j : Nat) (s : St) : St :=
  ⟨s.events ++ videoSuccessTrace env s.calls j, s.calls + (j + 5)⟩

def afterCached (env : Env) (s : St) : St :=
  ⟨s.events ++ cachedTrace env s.calls, s.calls + 5⟩

def afterSystemInstruction (env : Env) (s : St) : St :=
  ⟨s.events ++ systemInstructionTrace env s.calls, s.calls + 1⟩

def afterTools (env : Env) (s : St) : St :=
  ⟨s.events ++ toolsTrace env s.calls, s.calls + 1⟩

/-! ## The `Safe` invariant and claim predicates

`Safe P m` holds of an embedded fragment `m` when, from every start state
and under every oracle behaviour (SDK failures and fuel exhaustion
included): events are only appended and all appended events satisfy `P`;
the call counter advances exactly by the number of appended SDK-call
events; the only message ever thrown by the fragment is the video
routine's; and when the fragment ends in an uncaught SDK exception for
call `n`, that call was the last event performed and exactly `n + 1` SDK
calls have happened. -/

/-- Whether an event is an awaited SDK operation (an operation that can
raise an SDK exception). -/
def isSdkCallB : Event → Bool
  | Event.uploadFile _ _ => true
  | Event.getFile _ => true
  | Event.deleteFile _ => true
  | Event.countTokens _ => true
  | Event.generateContent _ => true
  | Event.getHistory _ => true
  | Event.sendMessage _ => true
  | Event.cacheCreate _ _ _ => true
  | Event.cacheDelete _ => true
  | _ => false

/-- Number of SDK-call events in a trace. -/
def sdkCount : List Event → Nat
  | [] => 0
  | e :: l => (if isSdkCallB e then 1 else 0) + sdkCount l

def Safe (P : Event → Prop) {α : Type} (m : M α) : Prop :=
  ∀ s : St,
    (∃ l, (m s).1.events = s.events ++ l ∧ (∀ e ∈ l, P e) ∧
      sdkCount l + s.calls = (m s).1.calls) ∧
    (∀ msg, (m s).2 = Res.thrown msg → msg = "Video processing failed.") ∧
    (∀ n, (m s).2 = Res.sdkErr n → (m s).1.calls = n + 1 ∧ s.calls ≤ n ∧
      ∃ l' e, (m s).1.events = l' ++ [e] ∧ isSdkCallB e = true)

/-! Hypothesis bundle: `P` holds of every event the script can emit.  The
construction events are constrained to the one key the script ever passes
(`process.env.API_KEY`), the `fsRead` event to the one local path the
script ever reads; all payload-carrying hypotheses are quantified because
their payloads depend on the oracle. -/

structure EmitsP (env : Env) (P : Event → Prop) : Prop where
  genAI : P (Event.newGenAI env.apiKey)
  fileManager : P (Event.newFileManager env.apiKey)
  cacheManager : P (Event.newCacheManager env.apiKey)
  modelOf : ∀ m, P (Event.getGenerativeModel m)
  countOf : ∀ r, P (Event.countTokens r)
  genOf : ∀ r, P (Event.generateContent r)
  logOf : ∀ t, P (Event.consoleLog t)
  writeOf : ∀ t, P (Event.stdoutWrite t)
  sleepOf : P (Event.sleep 10000)
  chatOf : ∀ h, P (Event.startChat h)
  histOf : ∀ h, P (Event.getHistory h)
  sendOf : ∀ m, P (Event.sendMessage m)
  uploadOf : ∀ p m, P (Event.uploadFile p m)
  getOf : ∀ n, P (Event.getFile n)
  cacheCreateOf : ∀ m t c, P (Event.cacheCreate m t c)
  cacheDeleteOf : ∀ n, P (Event.cacheDelete n)
  readOf : P (Event.fsRead (mediaPath env ++ "/jetpack.jpg"))

/-- The key argument of a client-constructor event, when the event is one. -/
def constructionKey : Event → Option (Option String)
  | Event.newGenAI k => some k
  | Event.newFileManager k => some k
  | Event.newCacheManager k => some k
  | _ => none

/-- The local-effect discipline of the script: an event is either console
or stdout output, a sleep, an awaited SDK/network operation, SDK-object
construction (`new ...`/`getGenerativeModel`/`startChat`, local memory
only), or a read of a local file under the media directory.  In
particular no event writes to the local filesystem. -/
def localEffectOK (env : Env) (e : Event) : Prop :=
  (∃ t, e = Event.consoleLog t) ∨
  (∃ t, e = Event.stdoutWrite t) ∨
  (∃ ms, e = Event.sleep ms) ∨
  isSdkCallB e = true ∨
  (∃ k, e = Event.newGenAI k ∨ e = Event.newFileManager k ∨
    e = Event.newCacheManager k) ∨
  (∃ m, e = Event.getGenerativeModel m) ∨
  (∃ h, e = Event.startChat h) ∨
  (∃ rest, e = Event.fsRead (mediaPath env ++ rest))

/-- Content parts occurring in a request payload. -/
def reqParts : SdkReq → List Part
  | SdkReq.ofText _ => []
  | SdkReq.ofItems items =>
      items.foldr (fun it acc =>
        match it with
        | ReqItem.str _ => acc
        | ReqItem.part p => p :: acc) []
  | SdkReq.ofGenRequest r =>
      (r.contents.foldr (fun t acc => t.parts ++ acc) []) ++
      (match r.systemInstruction with
       | some t => t.parts
       | none => [])

/-- Content parts this event sends to the SDK in a request payload. -/
def eventSentParts : Event → List Part
  | Event.countTokens r => reqParts r
  | Event.generateContent r => reqParts r
  | Event.startChat h => h.foldr (fun t acc => t.parts ++ acc) []
  | Event.cacheCreate _ _ cs => cs.foldr (fun t acc => t.parts ++ acc) []
  | _ => []

/-- Content parts this event receives from the SDK in a response payload. -/
def eventRecvParts : Event → List Part
  | Event.getHistory h => h.foldr (fun t acc => t.parts ++ acc) []
  | _ => []

/-- All parts sent to the SDK across a trace. -/
def sentParts (tr : List Event) : List Part :=
  tr.foldr (fun e acc => eventSentParts e ++ acc) []

/-- All parts received from the SDK across a trace. -/
def recvParts (tr : List Event) : List Part :=
  tr.foldr (fun e acc => eventRecvParts e ++ acc) []

/-- The pass-through discipline asserted by the spec's data-model section:
every content part sent to the SDK in a request payload was previously
received from the SDK in a response payload, i.e. no payload entity is
created by code in this repository. -/
def payloadsPassedThrough (tr : List Event) : Prop :=
  ∀ p ∈ sentParts tr, p ∈ recvParts tr

/-- A concrete oracle: every SDK call succeeds and the uploaded video is
immediately `ACTIVE`. -/
def cenvA : Env where
  apiKey := some "AKEY"
  dirname := "DIR"
  fileBase64 := fun _ => "b"
  sdkFail := fun _ => false
  fileState := fun _ => FileState.active
  uploadResult := fun _ => ⟨"fname", "furi", "fmime"⟩
  countResult := fun _ => ⟨0, "c", "r"⟩
  genResult := fun _ => ⟨"u"⟩
  chatHistory := []
  cacheResult := fun _ => ⟨"cache"⟩

/-- Like `cenvA`, but the remote video processing ends in `FAILED`. -/
def cenvFailState : Env := { cenvA with fileState := fun _ => FileState.failed }

/-- Like `cenvA`, but every `getFile` reports `PROCESSING`, forever. -/
def cenvAllProcessing : Env :=
  { cenvA with fileState := fun _ => FileState.processing }

/-- Like `cenvA`, but every SDK call raises. -/
def cenvSdkDown : Env := { cenvA with sdkFail := fun _ => true }

/-- Divergence of the video routine: for every iteration bound the run is
still inside the poll loop. -/
def videoLoopDiverges (env : Env) : Prop :=
  ∀ fuel, ((tokensMultimodalVideoAudioFileApi env fuel) ⟨[], 0⟩).2 = Res.pending

/-! Step lemmas used to compute runs of the embedded routines. -/

theorem bindM_emit {β : Type} (e : Event) (f : Unit → M β) (s : St) :
    bindM (emit e) f s = f () ⟨s.events ++ [e], s.calls⟩ := rfl

theorem bindM_pureM {α β : Type} (a : α) (f : α → M β) (s : St) :
    bindM (pureM a) f s = f a s := rfl

theorem bindM_sdkCall_ok {α β : Type} (env : Env) (e : Event) (r : Nat → α)
    (f : α → M β) (s : St) (h : env.sdkFail s.calls = false) :
    bindM (sdkCall env e r) f s = f (r s.calls) ⟨s.events ++ [e], s.calls + 1⟩ := by
  simp [bindM, sdkCall, h]

theorem bindM_sdkCall_fail {α β : Type} (env : Env) (e : Event) (r : Nat → α)
    (f : α → M β) (s : St) (h : env.sdkFail s.calls = true) :
    bindM (sdkCall env e r) f s =
      (⟨s.events ++ [e], s.calls + 1⟩, Res.sdkErr s.calls) := by
  simp [bindM, sdkCall, h]

theorem bindM_bindM {α β γ : Type} (m : M α) (g : α → M β) (f : β → M γ) (s : St) :
    bindM (bindM m g) f s = bindM m (fun a => bindM (g a) f) s := by
  unfold bindM
  rcases m s with ⟨s', r⟩
  cases r <;> rfl

theorem bindM_of_run {α β : Type} {m : M α} {s s' : St} {a : α}
    (h : m s = (s', Res.ok a)) (f : α → M β) :
    bindM m f s = f a s' := by
  simp [bindM, h]

theorem bindM_pending_of {α β : Type} {m : M α} {s : St}
    (h : (m s).2 = Res.pending) (f : α → M β) :
    (bindM m f s).2 = Res.pending := by
  unfold bindM
  rcases hms : m s with ⟨s', r⟩
  rw [hms] at h
  cases r <;> simp_all

theorem bindM_thrown_of {α β : Type} {m : M α} {s : St} {msg : String}
    (h : (m s).2 = Res.thrown msg) (f : α → M β) :
    (bindM m f s).2 = Res.thrown msg := by
  unfold bindM
  rcases hms : m s with ⟨s', r⟩
  rw [hms] at h
  cases r <;> simp_all

theorem bindM_sdkErr_of {α β : Type} {m : M α} {s : St} {n : Nat}
    (h : (m s).2 = Res.sdkErr n) (f : α → M β) :
    (bindM m f s).2 = Res.sdkErr n := by
  unfold bindM
  rcases hms : m s with ⟨s', r⟩
  rw [hms] at h
  cases r <;> simp_all

theorem pollLoop_processing_succ (env : Env) (name : String) (fuel : Nat) (s : St) :
    pollLoop env name (fuel + 1) FileState.processing s =
      (bindM (emit (Event.stdoutWrite ".")) fun _ =>
       bindM (emit (Event.sleep 10000)) fun _ =>
       bindM (sdkCall env (Event.getFile name) env.fileState) fun newState =>
       pollLoop env name fuel newState) s := by
  simp [pollLoop]

theorem pollLoop_not_processing (env : Env) (name : String) (fuel : Nat)
    (st : FileState) (s : St) (h : st ≠ FileState.processing) :
    pollLoop env name fuel st s = (s, Res.ok st) := by
  cases fuel <;> simp [pollLoop, h, pureM]

theorem pollLoop_run (env : Env) (name : String)
    (hok : ∀ n, env.sdkFail n = false) :
    ∀ (j fuel : Nat) (s : St), j < fuel →
    (∀ m < j, env.fileState (s.calls + m) = FileState.processing) →
    env.fileState (s.calls + j) ≠ FileState.processing →
    pollLoop env name fuel FileState.processing s =
      (⟨s.events ++ pollTrace name (j + 1), s.calls + (j + 1)⟩,
        Res.ok (env.fileState (s.calls + j))) := by
  intro j
  induction j with
  | zero =>
      intro fuel s hfuel _ hexit
      simp only [Nat.add_zero] at hexit
      match fuel, hfuel with
      | fuel + 1, _ =>
        rw [pollLoop_processing_succ, bindM_emit, bindM_emit,
          bindM_sdkCall_ok env _ _ _ _ (hok _)]
        rw [pollLoop_not_processing env name fuel _ _ hexit]
        simp [pollTrace]
  | succ j ih =>
      intro fuel s hfuel hm hexit
      match fuel, hfuel with
      | fuel + 1, hfuel =>
        rw [pollLoop_processing_succ, bindM_emit, bindM_emit,
          bindM_sdkCall_ok env _ _ _ _ (hok _)]
        have h0 : env.fileState s.calls = FileState.processing := by
          have := hm 0 (Nat.succ_pos j)
          simpa using this
        rw [h0]
        have hstep := ih fuel ⟨((s.events ++ [Event.stdoutWrite "."]) ++
              [Event.sleep 10000]) ++ [Event.getFile name], s.calls + 1⟩
            (by omega)
            (by intro m hmj
                have := hm (m + 1) (by omega)
                have h1 : s.calls + 1 + m = s.calls + (m + 1) := by omega
                rw [h1]; exact this)
            (by have h1 : s.calls + 1 + j = s.calls + (j + 1) := by omega
                rw [h1]; exact hexit)
        rw [hstep]
        have h2 : s.calls + 1 + j = s.calls + (j + 1) := by omega
        have h3 : s.calls + 1 + (j + 1) = s.calls + (j + 1 + 1) := by omega
        simp [pollTrace, h2, h3]

theorem pollLoop_all_processing (env : Env) (name : String)
    (hok : ∀ n, env.sdkFail n = false) :
    ∀ (fuel : Nat) (s : St),
    (∀ m, env.fileState (s.calls + m) = FileState.processing) →
    (pollLoop env name fuel FileState.processing s).2 = Res.pending := by
  intro fuel
  induction fuel with
  | zero => intro s _; simp [pollLoop]
  | succ fuel ih =>
      intro s hall
      rw [pollLoop_processing_succ, bindM_emit, bindM_emit,
        bindM_sdkCall_ok env _ _ _ _ (hok _)]
      have h0 : env.fileState s.calls = FileState.processing := by
        have := hall 0; simpa using this
      rw [h0]
      exact ih ⟨((s.events ++ [Event.stdoutWrite "."]) ++ [Event.sleep 10000]) ++
          [Event.getFile name], s.calls + 1⟩
        (by intro m
            have := hall (m + 1)
            have h1 : s.calls + 1 + m = s.calls + (m + 1) := by omega
            rw [h1]; exact this)

theorem pollLoop_ok_not_processing (env : Env) (name : String) :
    ∀ (fuel : Nat) (st : FileState) (s : St) (st' : FileState),
    (pollLoop env name fuel st s).2 = Res.ok st' →
    st' ≠ FileState.processing := by
  intro fuel
  induction fuel with
  | zero =>
      intro st s st' h
      by_cases hst : st = FileState.processing
      · simp [pollLoop, hst] at h
      · simp [pollLoop, hst, pureM] at h
        subst h; exact hst
  | succ fuel ih =>
      intro st s st' h
      by_cases hst : st = FileState.processing
      · subst hst
        rw [pollLoop_processing_succ, bindM_emit, bindM_emit] at h
        cases hf : env.sdkFail ((⟨(s.events ++ [Event.stdoutWrite "."]) ++
            [Event.sleep 10000], s.calls⟩ : St).calls) with
        | false =>
            rw [bindM_sdkCall_ok env _ _ _ _ hf] at h
            exact ih _ _ _ h
        | true =>
            rw [bindM_sdkCall_fail env _ _ _ _ hf] at h
            simp at h
      · simp [pollLoop, hst, pureM] at h
        subst h; exact hst

theorem pollTrace_mem (name : String) :
    ∀ (j : Nat) (e : Event), e ∈ pollTrace name j →
    e = Event.stdoutWrite "." ∨ e = Event.sleep 10000 ∨ e = Event.getFile name := by
  intro j
  induction j with
  | zero => intro e he; simp [pollTrace] at he
  | succ j ih =>
      intro e he
      simp only [pollTrace, List.mem_cons] at he
      rcases he with h | h | h | h
      · exact Or.inl h
      · exact Or.inr (Or.inl h)
      · exact Or.inr (Or.inr h)
      · exact ih e h

theorem pollTrace_sleep_before_getFile (name : String) :
    ∀ (j i : Nat), (pollTrace name j)[i]? = some (Event.getFile name) →
    1 ≤ i ∧ (pollTrace name j)[i - 1]? = some (Event.sleep 10000) := by
  intro j
  induction j with
  | zero => intro i h; simp [pollTrace] at h
  | succ j ih =>
      intro i h
      match i with
      | 0 => simp [pollTrace] at h
      | 1 => simp [pollTrace] at h
      | 2 => exact ⟨by omega, by simp [pollTrace]⟩
      | n + 3 =>
          have h' : (pollTrace name j)[n]? = some (Event.getFile name) := by
            simpa [pollTrace] using h
          obtain ⟨h1, h2⟩ := ih n h'
          refine ⟨by omega, ?_⟩
          have : n + 3 - 1 = (n - 1) + 3 := by omega
          rw [this]
          simpa [pollTrace] using h2

/-! ## Happy-path characterizations of the routines -/

theorem tokensTextOnly_run (env : Env) (s : St)
    (hok : ∀ n, env.sdkFail n = false) :
    tokensTextOnly env s =
      (⟨s.events ++ textOnlyTrace env s.calls, s.calls + 2⟩, Res.ok ()) := by
  simp [tokensTextOnly, bindM_emit, bindM_sdkCall_ok, hok, emit, textOnlyTrace]

theorem tokensChat_run (env : Env) (s : St)
    (hok : ∀ n, env.sdkFail n = false) :
    tokensChat env s =
      (⟨s.events ++ chatTrace env s.calls, s.calls + 3⟩, Res.ok ()) := by
  simp [tokensChat, bindM_emit, bindM_sdkCall_ok, hok, emit, chatTrace]

theorem tokensMultimodalImageInline_run (env : Env) (s : St)
    (hok : ∀ n, env.sdkFail n = false) :
    tokensMultimodalImageInline env s =
      (⟨s.events ++ imageInlineTrace env s.calls, s.calls + 2⟩, Res.ok ()) := by
  simp [tokensMultimodalImageInline, fileToGenerativePart, bindM_bindM,
    bindM_emit, bindM_pureM, bindM_sdkCall_ok, hok, emit, imageInlineTrace]

theorem tokensMultimodalImageFileApi_run (env : Env) (s : St)
    (hok : ∀ n, env.sdkFail n = false) :
    tokensMultimodalImageFileApi env s =
      (⟨s.events ++ imageFileTrace env s.calls, s.calls + 4⟩, Res.ok ()) := by
  simp [tokensMultimodalImageFileApi, bindM_emit, bindM_sdkCall_ok, hok, emit,
    sdkCall, imageFileTrace]

theorem tokensCachedContent_run (env : Env) (s : St)
    (hok : ∀ n, env.sdkFail n = false) :
    tokensCachedContent env s =
      (⟨s.events ++ cachedTrace env s.calls, s.calls + 5⟩, Res.ok ()) := by
  simp [tokensCachedContent, bindM_emit, bindM_sdkCall_ok, hok, emit,
    sdkCall, cachedTrace]

theorem tokensSystemInstruction_run (env : Env) (s : St)
    (hok : ∀ n, env.sdkFail n = false) :
    tokensSystemInstruction env s =
      (⟨s.events ++ systemInstructionTrace env s.calls, s.calls + 1⟩, Res.ok ()) := by
  simp [tokensSystemInstruction, bindM_emit, bindM_sdkCall_ok, hok, emit,
    systemInstructionTrace]

theorem tokensTools_run (env : Env) (s : St)
    (hok : ∀ n, env.sdkFail n = false) :
    tokensTools env s =
      (⟨s.events ++ toolsTrace env s.calls, s.calls + 1⟩, Res.ok ()) := by
  simp [tokensTools, bindM_emit, bindM_sdkCall_ok, hok, emit, toolsTrace]

theorem tokensVideo_run_ok (env : Env) (fuel : Nat) (s : St) (j : Nat)
    (hok : ∀ n, env.sdkFail n = false)
    (hm : ∀ m < j, env.fileState (s.calls + 1 + m) = FileState.processing)
    (hexit : env.fileState (s.calls + 1 + j) ≠ FileState.processing)
    (hfuel : j ≤ fuel)
    (hnf : env.fileState (s.calls + 1 + j) ≠ FileState.failed) :
    tokensMultimodalVideoAudioFileApi env fuel s =
      (⟨s.events ++ videoSuccessTrace env s.calls j, s.calls + (j + 5)⟩,
        Res.ok ()) := by
  unfold tokensMultimodalVideoAudioFileApi
  rw [bindM_emit, bindM_sdkCall_ok env _ _ _ _ (hok _),
    bindM_sdkCall_ok env _ _ _ _ (hok _), bindM_emit]
  cases j with
  | zero =>
      simp only [Nat.add_zero] at hexit hnf
      rw [show (⟨s.events ++ [Event.newFileManager env.apiKey], s.calls⟩ : St).calls + 1
            = s.calls + 1 from rfl] at hexit hnf
      rw [bindM_of_run (pollLoop_not_processing env _ fuel _ _ hexit)]
      rw [if_neg hnf]
      simp [bindM_emit, bindM_sdkCall_ok, hok, emit, sdkCall, videoSuccessTrace,
        videoPrefixTrace, videoSuffixTrace, videoReq, pollTrace]
  | succ j' =>
      have h0 : env.fileState (s.calls + 1) = FileState.processing := by
        have := hm 0 (Nat.succ_pos j')
        simpa using this
      rw [show env.fileState ((⟨s.events ++ [Event.newFileManager env.apiKey],
            s.calls⟩ : St).calls + 1) = env.fileState (s.calls + 1) from rfl, h0]
      have hpoll := pollLoop_run env (env.uploadResult s.calls).name hok j' fuel
          ⟨((s.events ++ [Event.newFileManager env.apiKey]) ++
            [Event.uploadFile (mediaPath env ++ "/Big_Buck_Bunny.mp4") "video/mp4"]) ++
            [Event.getFile (env.uploadResult s.calls).name] ++
            [Event.stdoutWrite "processing video"], s.calls + 1 + 1⟩
          (by omega)
          (by intro m hmj
              have := hm (m + 1) (by omega)
              have h1 : s.calls + 1 + 1 + m = s.calls + 1 + (m + 1) := by omega
              rw [h1]; exact this)
          (by have h1 : s.calls + 1 + 1 + j' = s.calls + 1 + (j' + 1) := by omega
              rw [h1]; exact hexit)
      rw [bindM_of_run hpoll]
      have h2 : s.calls + 1 + 1 + j' = s.calls + 1 + (j' + 1) := by omega
      rw [h2, if_neg hnf]
      simp only [bindM_emit, bindM_sdkCall_ok, hok, emit, sdkCall,
        Bool.false_eq_true, if_false]
      simp only [videoSuccessTrace, videoPrefixTrace, videoSuffixTrace, videoReq,
        Prod.mk.injEq, St.mk.injEq, List.append_assoc, List.cons_append,
        List.singleton_append, List.nil_append]
      refine ⟨⟨?_, ?_⟩, trivial⟩
      · have h3 : s.calls + 1 + 1 + (j' + 1) + 1 = s.calls + 2 + (j' + 1) + 1 := by
          omega
        have h4 : s.calls + 1 + 1 + (j' + 1) = s.calls + 2 + (j' + 1) := by omega
        rw [h3, h4]
        have h5 : s.calls + 2 + (j' + 1) + 1 = s.calls + 3 + (j' + 1) := by omega
        rw [h5]
      · omega

theorem tokensVideo_run_failed (env : Env) (fuel : Nat) (s : St) (j : Nat)
    (hok : ∀ n, env.sdkFail n = false)
    (hm : ∀ m < j, env.fileState (s.calls + 1 + m) = FileState.processing)
    (hexit : env.fileState (s.calls + 1 + j) ≠ FileState.processing)
    (hfuel : j ≤ fuel)
    (hf : env.fileState (s.calls + 1 + j) = FileState.failed) :
    tokensMultimodalVideoAudioFileApi env fuel s =
      (⟨s.events ++ videoFailTrace env s.calls j, s.calls + (j + 2)⟩,
        Res.thrown "Video processing failed.") := by
  unfold tokensMultimodalVideoAudioFileApi
  rw [bindM_emit, bindM_sdkCall_ok env _ _ _ _ (hok _),
    bindM_sdkCall_ok env _ _ _ _ (hok _), bindM_emit]
  cases j with
  | zero =>
      simp only [Nat.add_zero] at hexit hf
      rw [show (⟨s.events ++ [Event.newFileManager env.apiKey], s.calls⟩ : St).calls + 1
            = s.calls + 1 from rfl] at hexit hf
      rw [bindM_of_run (pollLoop_not_processing env _ fuel _ _ hexit)]
      rw [if_pos hf]
      simp [bindM, throwErr, videoFailTrace, videoPrefixTrace, pollTrace]
  | succ j' =>
      have h0 : env.fileState (s.calls + 1) = FileState.processing := by
        have := hm 0 (Nat.succ_pos j')
        simpa using this
      rw [show env.fileState ((⟨s.events ++ [Event.newFileManager env.apiKey],
            s.calls⟩ : St).calls + 1) = env.fileState (s.calls + 1) from rfl, h0]
      have hpoll := pollLoop_run env (env.uploadResult s.calls).name hok j' fuel
          ⟨((s.events ++ [Event.newFileManager env.apiKey]) ++
            [Event.uploadFile (mediaPath env ++ "/Big_Buck_Bunny.mp4") "video/mp4"]) ++
            [Event.getFile (env.uploadResult s.calls).name] ++
            [Event.stdoutWrite "processing video"], s.calls + 1 + 1⟩
          (by omega)
          (by intro m hmj
              have := hm (m + 1) (by omega)
              have h1 : s.calls + 1 + 1 + m = s.calls + 1 + (m + 1) := by omega
              rw [h1]; exact this)
          (by have h1 : s.calls + 1 + 1 + j' = s.calls + 1 + (j' + 1) := by omega
              rw [h1]; exact hexit)
      rw [bindM_of_run hpoll]
      have h2 : s.calls + 1 + 1 + j' = s.calls + 1 + (j' + 1) := by omega
      rw [h2, if_pos hf]
      simp only [bindM, throwErr]
      simp only [videoFailTrace, videoPrefixTrace, Prod.mk.injEq, St.mk.injEq,
        List.append_assoc, List.cons_append, List.singleton_append, List.nil_append]
      refine ⟨⟨?_, ?_⟩, ?_⟩ <;> first | trivial | omega

theorem tokensVideo_run_all_processing (env : Env) (fuel : Nat) (s : St)
    (hok : ∀ n, env.sdkFail n = false)
    (hall : ∀ m, env.fileState (s.calls + 1 + m) = FileState.processing) :
    (tokensMultimodalVideoAudioFileApi env fuel s).2 = Res.pending := by
  unfold tokensMultimodalVideoAudioFileApi
  rw [bindM_emit, bindM_sdkCall_ok env _ _ _ _ (hok _),
    bindM_sdkCall_ok env _ _ _ _ (hok _), bindM_emit]
  have h0 : env.fileState (s.calls + 1) = FileState.processing := by
    have := hall 0
    simpa using this
  rw [show env.fileState ((⟨s.events ++ [Event.newFileManager env.apiKey],
        s.calls⟩ : St).calls + 1) = env.fileState (s.calls + 1) from rfl, h0]
  have hpend := pollLoop_all_processing env (env.uploadResult s.calls).name hok fuel
      ⟨((s.events ++ [Event.newFileManager env.apiKey]) ++
        [Event.uploadFile (mediaPath env ++ "/Big_Buck_Bunny.mp4") "video/mp4"]) ++
        [Event.getFile (env.uploadResult s.calls).name] ++
        [Event.stdoutWrite "processing video"], s.calls + 1 + 1⟩
      (by intro m
          have := hall (m + 1)
          have h1 : s.calls + 1 + 1 + m = s.calls + 1 + (m + 1) := by omega
          rw [h1]; exact this)
  exact bindM_pending_of hpend _

/-- On the happy path (no SDK failure, the video's poll loop exits within
`fuel` iterations in a non-failed state), `runAll` is exactly the
sequential composition of the eight routines' state transformers, in the
textual order of the source. -/
theorem runAll_run (env : Env) (fuel : Nat) (s : St) (j : Nat)
    (hok : ∀ n, env.sdkFail n = false)
    (hm : ∀ m < j, env.fileState (s.calls + 12 + m) = FileState.processing)
    (hexit : env.fileState (s.calls + 12 + j) ≠ FileState.processing)
    (hfuel : j ≤ fuel)
    (hnf : env.fileState (s.calls + 12 + j) ≠ FileState.failed) :
    runAll env fuel s =
      (afterTools env (afterSystemInstruction env (afterCached env
        (afterVideo env j (afterImageFile env (afterImageInline env
          (afterChat env (afterTextOnly env s))))))), Res.ok ()) := by
  unfold runAll
  rw [bindM_of_run (tokensTextOnly_run env s hok)]
  rw [bindM_of_run (tokensChat_run env _ hok)]
  rw [bindM_of_run (tokensMultimodalImageInline_run env _ hok)]
  rw [bindM_of_run (tokensMultimodalImageFileApi_run env _ hok)]
  rw [bindM_of_run (tokensVideo_run_ok env fuel _ j hok hm hexit hfuel hnf)]
  rw [bindM_of_run (tokensCachedContent_run env _ hok)]
  rw [bindM_of_run (tokensSystemInstruction_run env _ hok)]
  rw [tokensTools_run env _ hok]
  rfl

/-! ## Closure lemmas and instances of the `Safe` invariant -/

theorem sdkCount_append (l₁ l₂ : List Event) :
    sdkCount (l₁ ++ l₂) = sdkCount l₁ + sdkCount l₂ := by
  induction l₁ with
  | nil => simp [sdkCount]
  | cons e l ih => simp [sdkCount, ih]; omega

theorem safe_pureM {α : Type} (P : Event → Prop) (a : α) : Safe P (pureM a) := by
  intro s
  refine ⟨⟨[], by simp [pureM], by simp, by simp [pureM, sdkCount]⟩, ?_, ?_⟩
  · intro msg h; simp [pureM] at h
  · intro n h; simp [pureM] at h

theorem safe_pending {α : Type} (P : Event → Prop) :
    Safe P (fun s => ((s, Res.pending) : St × Res α)) := by
  intro s
  refine ⟨⟨[], by simp, by simp, by simp [sdkCount]⟩, ?_, ?_⟩
  · intro msg h; simp at h
  · intro n h; simp at h

theorem safe_emit (P : Event → Prop) (e : Event) (hP : P e)
    (hb : isSdkCallB e = false) : Safe P (emit e) := by
  intro s
  refine ⟨⟨[e], by simp [emit], by simpa, by simp [emit, sdkCount, hb]⟩, ?_, ?_⟩
  · intro msg h; simp [emit] at h
  · intro n h; simp [emit] at h

theorem safe_sdkCall {α : Type} (P : Event → Prop) (env : Env) (e : Event)
    (r : Nat → α) (hP : P e) (hb : isSdkCallB e = true) :
    Safe P (sdkCall env e r) := by
  intro s
  by_cases hf : env.sdkFail s.calls = true
  · refine ⟨⟨[e], by simp [sdkCall, hf], by simpa,
      by simp [sdkCall, hf, sdkCount, hb]; omega⟩, ?_, ?_⟩
    · intro msg h; simp [sdkCall, hf] at h
    · intro n h
      simp only [sdkCall, hf, if_true] at h ⊢
      have hn : n = s.calls := by
        have := h
        simp at this
        omega
      subst hn
      exact ⟨rfl, Nat.le.refl, s.events, e, rfl, hb⟩
  · simp only [Bool.not_eq_true] at hf
    refine ⟨⟨[e], by simp [sdkCall, hf], by simpa,
      by simp [sdkCall, hf, sdkCount, hb]; omega⟩, ?_, ?_⟩
    · intro msg h; simp [sdkCall, hf] at h
    · intro n h; simp [sdkCall, hf] at h

theorem safe_throwVideo {α : Type} (P : Event → Prop) :
    Safe P (throwErr (α := α) "Video processing failed.") := by
  intro s
  refine ⟨⟨[], by simp [throwErr], by simp, by simp [throwErr, sdkCount]⟩, ?_, ?_⟩
  · intro msg h
    simp [throwErr] at h
    exact h.symm
  · intro n h; simp [throwErr] at h

theorem safe_ite {α : Type} (P : Event → Prop) (c : Prop) [Decidable c]
    (m₁ m₂ : M α) (h₁ : Safe P m₁) (h₂ : Safe P m₂) :
    Safe P (if c then m₁ else m₂) := by
  by_cases hc : c
  · simpa [hc] using h₁
  · simpa [hc] using h₂

theorem safe_bindM {α β : Type} (P : Event → Prop) (m : M α) (f : α → M β)
    (hm : Safe P m) (hf : ∀ a, Safe P (f a)) : Safe P (bindM m f) := by
  intro s
  obtain ⟨⟨l₁, he₁, hp₁, hc₁⟩, hth₁, herr₁⟩ := hm s
  rcases hms : m s with ⟨s₁, r₁⟩
  rw [hms] at he₁ hc₁ hth₁ herr₁
  simp only at he₁ hc₁ hth₁ herr₁
  cases r₁ with
  | ok a =>
      obtain ⟨⟨l₂, he₂, hp₂, hc₂⟩, hth₂, herr₂⟩ := hf a s₁
      have hbm : bindM m f s = f a s₁ := by simp [bindM, hms]
      rw [hbm]
      refine ⟨⟨l₁ ++ l₂, ?_, ?_, ?_⟩, hth₂, ?_⟩
      · rw [he₂, he₁, List.append_assoc]
      · intro e he
        rcases List.mem_append.mp he with h | h
        · exact hp₁ e h
        · exact hp₂ e h
      · rw [sdkCount_append]
        omega
      · intro n hn
        obtain ⟨ha, hb, hc⟩ := herr₂ n hn
        exact ⟨ha, by omega, hc⟩
  | thrown msg =>
      have hbm : bindM m f s = (s₁, Res.thrown msg) := by simp [bindM, hms]
      rw [hbm]
      refine ⟨⟨l₁, he₁, hp₁, hc₁⟩, ?_, ?_⟩
      · intro msg' h
        cases h
        exact hth₁ msg rfl
      · intro n h; simp at h
  | sdkErr n =>
      have hbm : bindM m f s = (s₁, Res.sdkErr n) := by simp [bindM, hms]
      rw [hbm]
      refine ⟨⟨l₁, he₁, hp₁, hc₁⟩, ?_, ?_⟩
      · intro msg h; simp at h
      · intro n' h
        cases h
        exact herr₁ n rfl
  | pending =>
      have hbm : bindM m f s = (s₁, Res.pending) := by simp [bindM, hms]
      rw [hbm]
      refine ⟨⟨l₁, he₁, hp₁, hc₁⟩, ?_, ?_⟩
      · intro msg h; simp at h
      · intro n h; simp at h

theorem safe_tokensTextOnly (env : Env) (P : Event → Prop) (h : EmitsP env P) :
    Safe P (tokensTextOnly env) := by
  unfold tokensTextOnly
  refine safe_bindM P _ _ (safe_emit P _ h.genAI rfl) fun _ => ?_
  refine safe_bindM P _ _ (safe_emit P _ (h.modelOf _) rfl) fun _ => ?_
  refine safe_bindM P _ _ (safe_sdkCall P env _ _ (h.countOf _) rfl) fun r => ?_
  refine safe_bindM P _ _ (safe_emit P _ (h.logOf _) rfl) fun _ => ?_
  refine safe_bindM P _ _ (safe_emit P _ (h.logOf _) rfl) fun _ => ?_
  refine safe_bindM P _ _ (safe_sdkCall P env _ _ (h.genOf _) rfl) fun g => ?_
  exact safe_emit P _ (h.logOf _) rfl

theorem safe_tokensChat (env : Env) (P : Event → Prop) (h : EmitsP env P) :
    Safe P (tokensChat env) := by
  unfold tokensChat
  refine safe_bindM P _ _ (safe_emit P _ h.genAI rfl) fun _ => ?_
  refine safe_bindM P _ _ (safe_emit P _ (h.modelOf _) rfl) fun _ => ?_
  refine safe_bindM P _ _ (safe_emit P _ (h.chatOf _) rfl) fun _ => ?_
  refine safe_bindM P _ _ (safe_sdkCall P env _ _ (h.histOf _) rfl) fun hist => ?_
  refine safe_bindM P _ _ (safe_sdkCall P env _ _ (h.countOf _) rfl) fun r => ?_
  refine safe_bindM P _ _ (safe_emit P _ (h.logOf _) rfl) fun _ => ?_
  refine safe_bindM P _ _ (safe_sdkCall P env _ _ (h.sendOf _) rfl) fun g => ?_
  exact safe_emit P _ (h.logOf _) rfl

theorem safe_tokensMultimodalImageInline (env : Env) (P : Event → Prop)
    (h : EmitsP env P) : Safe P (tokensMultimodalImageInline env) := by
  unfold tokensMultimodalImageInline
  refine safe_bindM P _ _ (safe_emit P _ h.genAI rfl) fun _ => ?_
  refine safe_bindM P _ _ (safe_emit P _ (h.modelOf _) rfl) fun _ => ?_
  refine safe_bindM P _ _ ?_ fun p => ?_
  · unfold fileToGenerativePart
    refine safe_bindM P _ _ (safe_emit P _ h.readOf rfl) fun _ => ?_
    exact safe_pureM P _
  · refine safe_bindM P _ _ (safe_sdkCall P env _ _ (h.countOf _) rfl) fun r => ?_
    refine safe_bindM P _ _ (safe_emit P _ (h.logOf _) rfl) fun _ => ?_
    refine safe_bindM P _ _ (safe_sdkCall P env _ _ (h.genOf _) rfl) fun g => ?_
    exact safe_emit P _ (h.logOf _) rfl

theorem safe_tokensMultimodalImageFileApi (env : Env) (P : Event → Prop)
    (h : EmitsP env P) (hdel : ∀ n, P (Event.deleteFile n)) :
    Safe P (tokensMultimodalImageFileApi env) := by
  unfold tokensMultimodalImageFileApi
  refine safe_bindM P _ _ (safe_emit P _ h.fileManager rfl) fun _ => ?_
  refine safe_bindM P _ _ (safe_sdkCall P env _ _ (h.uploadOf _ _) rfl) fun u => ?_
  refine safe_bindM P _ _ (safe_emit P _ h.genAI rfl) fun _ => ?_
  refine safe_bindM P _ _ (safe_emit P _ (h.modelOf _) rfl) fun _ => ?_
  refine safe_bindM P _ _ (safe_sdkCall P env _ _ (h.countOf _) rfl) fun r => ?_
  refine safe_bindM P _ _ (safe_emit P _ (h.logOf _) rfl) fun _ => ?_
  refine safe_bindM P _ _ (safe_sdkCall P env _ _ (h.genOf _) rfl) fun g => ?_
  refine safe_bindM P _ _ (safe_emit P _ (h.logOf _) rfl) fun _ => ?_
  exact safe_sdkCall P env _ _ (hdel u.name) rfl

theorem safe_pollLoop (env : Env) (name : String) (P : Event → Prop)
    (h : EmitsP env P) :
    ∀ (fuel : Nat) (st : FileState), Safe P (pollLoop env name fuel st)
  | 0, st => by
      unfold pollLoop
      exact safe_ite P _ _ _ (safe_pending P) (safe_pureM P _)
  | fuel + 1, st => by
      unfold pollLoop
      refine safe_ite P _ _ _ ?_ (safe_pureM P _)
      refine safe_bindM P _ _ (safe_emit P _ (h.writeOf _) rfl) fun _ => ?_
      refine safe_bindM P _ _ (safe_emit P _ h.sleepOf rfl) fun _ => ?_
      refine safe_bindM P _ _ (safe_sdkCall P env _ _ (h.getOf _) rfl) fun f => ?_
      exact safe_pollLoop env name P h fuel f

theorem safe_tokensMultimodalVideoAudioFileApi (env : Env) (fuel : Nat)
    (P : Event → Prop) (h : EmitsP env P) (hdel : ∀ n, P (Event.deleteFile n)) :
    Safe P (tokensMultimodalVideoAudioFileApi env fuel) := by
  unfold tokensMultimodalVideoAudioFileApi
  refine safe_bindM P _ _ (safe_emit P _ h.fileManager rfl) fun _ => ?_
  refine safe_bindM P _ _ (safe_sdkCall P env _ _ (h.uploadOf _ _) rfl) fun u => ?_
  refine safe_bindM P _ _ (safe_sdkCall P env _ _ (h.getOf _) rfl) fun f0 => ?_
  refine safe_bindM P _ _ (safe_emit P _ (h.writeOf _) rfl) fun _ => ?_
  refine safe_bindM P _ _ (safe_pollLoop env _ P h fuel f0) fun f => ?_
  refine safe_bindM P _ _
    (safe_ite P _ _ _ (safe_throwVideo P) (safe_emit P _ (h.writeOf _) rfl))
    fun _ => ?_
  refine safe_bindM P _ _ (safe_emit P _ h.genAI rfl) fun _ => ?_
  refine safe_bindM P _ _ (safe_emit P _ (h.modelOf _) rfl) fun _ => ?_
  refine safe_bindM P _ _ (safe_sdkCall P env _ _ (h.countOf _) rfl) fun r => ?_
  refine safe_bindM P _ _ (safe_emit P _ (h.logOf _) rfl) fun _ => ?_
  refine safe_bindM P _ _ (safe_sdkCall P env _ _ (h.genOf _) rfl) fun g => ?_
  refine safe_bindM P _ _ (safe_emit P _ (h.logOf _) rfl) fun _ => ?_
  exact safe_sdkCall P env _ _ (hdel u.name) rfl

theorem safe_tokensCachedContent (env : Env) (P : Event → Prop)
    (h : EmitsP env P) : Safe P (tokensCachedContent env) := by
  unfold tokensCachedContent
  refine safe_bindM P _ _ (safe_emit P _ h.fileManager rfl) fun _ => ?_
  refine safe_bindM P _ _ (safe_sdkCall P env _ _ (h.uploadOf _ _) rfl) fun u => ?_
  refine safe_bindM P _ _ (safe_emit P _ h.cacheManager rfl) fun _ => ?_
  refine safe_bindM P _ _ (safe_sdkCall P env _ _ (h.cacheCreateOf _ _ _) rfl)
    fun cache => ?_
  refine safe_bindM P _ _ (safe_emit P _ h.genAI rfl) fun _ => ?_
  refine safe_bindM P _ _ (safe_emit P _ (h.modelOf _) rfl) fun _ => ?_
  refine safe_bindM P _ _ (safe_sdkCall P env _ _ (h.countOf _) rfl) fun r => ?_
  refine safe_bindM P _ _ (safe_emit P _ (h.logOf _) rfl) fun _ => ?_
  refine safe_bindM P _ _ (safe_sdkCall P env _ _ (h.genOf _) rfl) fun g => ?_
  refine safe_bindM P _ _ (safe_emit P _ (h.logOf _) rfl) fun _ => ?_
  exact safe_sdkCall P env _ _ (h.cacheDeleteOf _) rfl

theorem safe_tokensSystemInstruction (env : Env) (P : Event → Prop)
    (h : EmitsP env P) : Safe P (tokensSystemInstruction env) := by
  unfold tokensSystemInstruction
  refine safe_bindM P _ _ (safe_emit P _ h.genAI rfl) fun _ => ?_
  refine safe_bindM P _ _ (safe_emit P _ (h.modelOf _) rfl) fun _ => ?_
  refine safe_bindM P _ _ (safe_sdkCall P env _ _ (h.countOf _) rfl) fun r => ?_
  exact safe_emit P _ (h.logOf _) rfl

theorem safe_tokensTools (env : Env) (P : Event → Prop) (h : EmitsP env P) :
    Safe P (tokensTools env) := by
  unfold tokensTools
  refine safe_bindM P _ _ (safe_emit P _ h.genAI rfl) fun _ => ?_
  refine safe_bindM P _ _ (safe_emit P _ (h.modelOf _) rfl) fun _ => ?_
  refine safe_bindM P _ _ (safe_sdkCall P env _ _ (h.countOf _) rfl) fun r => ?_
  exact safe_emit P _ (h.logOf _) rfl

theorem safe_runAll (env : Env) (fuel : Nat) (P : Event → Prop)
    (h : EmitsP env P) (hdel : ∀ n, P (Event.deleteFile n)) :
    Safe P (runAll env fuel) := by
  unfold runAll
  refine safe_bindM P _ _ (safe_tokensTextOnly env P h) fun _ => ?_
  refine safe_bindM P _ _ (safe_tokensChat env P h) fun _ => ?_
  refine safe_bindM P _ _ (safe_tokensMultimodalImageInline env P h) fun _ => ?_
  refine safe_bindM P _ _ (safe_tokensMultimodalImageFileApi env P h hdel) fun _ => ?_
  refine safe_bindM P _ _ (safe_tokensMultimodalVideoAudioFileApi env fuel P h hdel)
    fun _ => ?_
  refine safe_bindM P _ _ (safe_tokensCachedContent env P h) fun _ => ?_
  refine safe_bindM P _ _ (safe_tokensSystemInstruction env P h) fun _ => ?_
  exact safe_tokensTools env P h

/-! ## Supporting lemmas for the claims -/

theorem emitsP_true (env : Env) : EmitsP env (fun _ => True) := by
  constructor <;> intros <;> trivial

theorem runAll_trace_pred (env : Env) (fuel : Nat) (P : Event → Prop)
    (h : EmitsP env P) (hdel : ∀ n, P (Event.deleteFile n)) :
    ∀ e ∈ runTrace env fuel, P e := by
  intro e he
  obtain ⟨⟨l, hl, hp, _⟩, _, _⟩ := safe_runAll env fuel P h hdel ⟨[], 0⟩
  unfold runTrace at he
  rw [hl] at he
  exact hp e (by simpa using he)

theorem runAll_thrown_msg (env : Env) (fuel : Nat) (s : St) (msg : String)
    (h : (runAll env fuel s).2 = Res.thrown msg) :
    msg = "Video processing failed." := by
  obtain ⟨_, hth, _⟩ :=
    safe_runAll env fuel (fun _ => True) (emitsP_true env) (fun _ => trivial) s
  exact hth msg h

theorem videoFailTrace_no_delete (env : Env) (c j : Nat) (nm : String) :
    Event.deleteFile nm ∉ videoFailTrace env c j := by
  intro h
  rcases List.mem_append.mp h with h | h
  · simp [videoPrefixTrace] at h
  · rcases pollTrace_mem _ j _ h with h | h | h <;> simp at h

theorem cachedTrace_no_delete (env : Env) (c : Nat) (nm : String) :
    Event.deleteFile nm ∉ cachedTrace env c := by
  intro h
  simp [cachedTrace] at h

theorem videoSuccessTrace_getLast (env : Env) (c j : Nat) :
    (videoSuccessTrace env c j).getLast? =
      some (Event.deleteFile (env.uploadResult c).name) := by
  unfold videoSuccessTrace
  rw [List.append_assoc, List.getLast?_append_of_ne_nil _ (by
    intro h
    have := congrArg List.length h
    simp [videoSuffixTrace] at this)]
  rw [List.getLast?_append_of_ne_nil _ (by
    intro h
    have := congrArg List.length h
    simp [videoSuffixTrace] at this)]
  simp [videoSuffixTrace]

/-! ## The claims -/

/-- C1: after the poll loop exits (first non-`PROCESSING` state at loop
index `j`, within fuel, no SDK failure), the video routine throws if and
only if that state is `FAILED`, with the source's exact message; in every
other exit state it runs to completion; and across the whole program, the
only message ever thrown by code of this repository — under every oracle
behaviour whatsoever — is this one. -/
theorem c1_video_throw_iff_failed :
    (∀ (env : Env) (fuel : Nat) (s : St) (j : Nat),
      (∀ n, env.sdkFail n = false) →
      (∀ m < j, env.fileState (s.calls + 1 + m) = FileState.processing) →
      env.fileState (s.calls + 1 + j) ≠ FileState.processing →
      j ≤ fuel →
      (((tokensMultimodalVideoAudioFileApi env fuel s).2 =
          Res.thrown "Video processing failed." ↔
        env.fileState (s.calls + 1 + j) = FileState.failed) ∧
       (env.fileState (s.calls + 1 + j) ≠ FileState.failed →
        (tokensMultimodalVideoAudioFileApi env fuel s).2 = Res.ok ()))) ∧
    (∀ (env : Env) (fuel : Nat) (s : St) (msg : String),
      (runAll env fuel s).2 = Res.thrown msg →
      msg = "Video processing failed.") := by
  constructor
  · intro env fuel s j hok hm hexit hfuel
    by_cases hfail : env.fileState (s.calls + 1 + j) = FileState.failed
    · rw [tokensVideo_run_failed env fuel s j hok hm hexit hfuel hfail]
      exact ⟨by simp [hfail], fun h => absurd hfail h⟩
    · rw [tokensVideo_run_ok env fuel s j hok hm hexit hfuel hfail]
      exact ⟨by simp [hfail], fun _ => rfl⟩
  · exact runAll_thrown_msg

/-- C1 witness: with a concrete oracle whose video processing ends in
`FAILED`, the routine throws the source's error. -/
theorem c1_witness :
    (tokensMultimodalVideoAudioFileApi cenvFailState 0 ⟨[], 0⟩).2 =
      Res.thrown "Video processing failed." :=
  ((c1_video_throw_iff_failed.1 cenvFailState 0 ⟨[], 0⟩ 0
      (fun _ => rfl)
      (fun m hm => absurd hm (Nat.not_lt_zero m))
      (by decide) (Nat.le.refl)).1).mpr rfl

/-- C2 counterexample: on a trace where every `getFile` reports
`PROCESSING`, the poll loop never terminates — for every iteration bound
the run is still inside the loop — so the loop is not bounded for every
sequence of remote file states. -/
theorem c2_counterexample : videoLoopDiverges cenvAllProcessing :=
  fun fuel =>
    tokensVideo_run_all_processing cenvAllProcessing fuel ⟨[], 0⟩
      (fun _ => rfl) (fun _ => rfl)

/-- C2 amended: the poll loop is externally driven, not unconditionally
bounded.  It fails to terminate exactly on the all-`PROCESSING` trace: if
every re-query reports `PROCESSING` the loop runs forever, and if some
`getFile` returns a non-`PROCESSING` state (within the iteration bound)
the routine is no longer inside the loop. -/
theorem c2_amended :
    ∀ (env : Env) (fuel : Nat) (s : St),
      (∀ n, env.sdkFail n = false) →
      ((∀ i, env.fileState (s.calls + 1 + i) = FileState.processing) →
        (tokensMultimodalVideoAudioFileApi env fuel s).2 = Res.pending) ∧
      (∀ j, j ≤ fuel →
        (∀ m < j, env.fileState (s.calls + 1 + m) = FileState.processing) →
        env.fileState (s.calls + 1 + j) ≠ FileState.processing →
        (tokensMultimodalVideoAudioFileApi env fuel s).2 ≠ Res.pending) := by
  intro env fuel s hok
  constructor
  · exact tokensVideo_run_all_processing env fuel s hok
  · intro j hfuel hm hexit
    by_cases hfail : env.fileState (s.calls + 1 + j) = FileState.failed
    · rw [tokensVideo_run_failed env fuel s j hok hm hexit hfuel hfail]
      simp
    · rw [tokensVideo_run_ok env fuel s j hok hm hexit hfuel hfail]
      simp

/-- C2 amended, witness: with a concrete oracle whose video is immediately
`ACTIVE`, the routine is not stuck in the loop even with bound 0. -/
theorem c2_witness :
    (tokensMultimodalVideoAudioFileApi cenvA 0 ⟨[], 0⟩).2 ≠ Res.pending :=
  (c2_amended cenvA 0 ⟨[], 0⟩ (fun _ => rfl)).2 0 (Nat.le.refl)
    (fun m hm => absurd hm (Nat.not_lt_zero m)) (by decide)

/-- C3: (1) the poll loop never hands a `PROCESSING` state to the code
after it; (2) in the loop's event trace, every re-query of the file is
immediately preceded by a fixed `sleep 10000` (10 seconds); (3) on the
happy path the video routine's events are exactly prefix, poll iterations
and suffix in sequence; (4) while every re-query keeps reporting
`PROCESSING`, the whole `runAll` sequence — not just the routine — is
still blocked inside the loop. -/
theorem c3_poll_sleep_blocking :
    (∀ (env : Env) (name : String) (fuel : Nat) (st : FileState) (s : St)
        (st' : FileState),
      (pollLoop env name fuel st s).2 = Res.ok st' →
      st' ≠ FileState.processing) ∧
    (∀ (name : String) (j i : Nat),
      (pollTrace name j)[i]? = some (Event.getFile name) →
      1 ≤ i ∧ (pollTrace name j)[i - 1]? = some (Event.sleep 10000)) ∧
    (∀ (env : Env) (fuel : Nat) (s : St) (j : Nat),
      (∀ n, env.sdkFail n = false) →
      (∀ m < j, env.fileState (s.calls + 1 + m) = FileState.processing) →
      env.fileState (s.calls + 1 + j) ≠ FileState.processing →
      j ≤ fuel →
      env.fileState (s.calls + 1 + j) ≠ FileState.failed →
      (tokensMultimodalVideoAudioFileApi env fuel s).1.events =
        s.events ++ videoPrefixTrace env s.calls ++
          pollTrace (env.uploadResult s.calls).name j ++
          videoSuffixTrace env s.calls j) ∧
    (∀ (env : Env) (fuel : Nat) (s : St),
      (∀ n, env.sdkFail n = false) →
      (∀ m, env.fileState (s.calls + 12 + m) = FileState.processing) →
      (runAll env fuel s).2 = Res.pending) := by
  refine ⟨pollLoop_ok_not_processing, pollTrace_sleep_before_getFile, ?_, ?_⟩
  · intro env fuel s j hok hm hexit hfuel hfail
    rw [tokensVideo_run_ok env fuel s j hok hm hexit hfuel hfail]
    simp [videoSuccessTrace]
  · intro env fuel s hok hall
    unfold runAll
    rw [bindM_of_run (tokensTextOnly_run env s hok)]
    rw [bindM_of_run (tokensChat_run env _ hok)]
    rw [bindM_of_run (tokensMultimodalImageInline_run env _ hok)]
    rw [bindM_of_run (tokensMultimodalImageFileApi_run env _ hok)]
    exact bindM_pending_of
      (tokensVideo_run_all_processing env fuel _ hok hall) _

/-- C3 witness: in one loop iteration's trace, the re-query at index 2 is
immediately preceded by the 10-second sleep at index 1. -/
theorem c3_witness :
    1 ≤ 2 ∧ (pollTrace "f" 1)[2 - 1]? = some (Event.sleep 10000) :=
  c3_poll_sleep_blocking.2.1 "f" 1 2 (by decide)

/-- C4: there is no `try`/`catch` anywhere — sequencing (`bindM`, the
model of one awaited step following another) propagates an SDK exception
unchanged, never handling it — and when the whole run ends in an uncaught
SDK exception from call `n`, the run aborted right there: exactly `n + 1`
SDK operations were ever issued (so no call was retried) and the failing
call's event is the last thing the program did. -/
theorem c4_sdk_errors_uncaught :
    (∀ {α β : Type} (m : M α) (f : α → M β) (s : St) (n : Nat),
      (m s).2 = Res.sdkErr n → (bindM m f s).2 = Res.sdkErr n) ∧
    (∀ (env : Env) (fuel : Nat) (n : Nat),
      runStatus env fuel = Res.sdkErr n →
      sdkCount (runTrace env fuel) = n + 1 ∧
      ∃ l e, runTrace env fuel = l ++ [e] ∧ isSdkCallB e = true) := by
  constructor
  · intro α β m f s n h
    exact bindM_sdkErr_of h f
  · intro env fuel n h
    obtain ⟨⟨l, hl, _, hc⟩, _, herr⟩ :=
      safe_runAll env fuel (fun _ => True) (emitsP_true env)
        (fun _ => trivial) ⟨[], 0⟩
    unfold runStatus at h
    obtain ⟨hcalls, _, l', e, hlast, hsdk⟩ := herr n h
    simp only [List.nil_append] at hl
    simp at hc
    constructor
    · unfold runTrace
      rw [hl]
      omega
    · exact ⟨l', e, by unfold runTrace; exact hlast, hsdk⟩

/-- C4 witness: with an oracle on which every SDK call raises, the run
aborts at call 0: one SDK call issued, and it is the last event. -/
theorem c4_witness :
    sdkCount (runTrace cenvSdkDown 0) = 0 + 1 ∧
    ∃ l e, runTrace cenvSdkDown 0 = l ++ [e] ∧ isSdkCallB e = true :=
  c4_sdk_errors_uncaught.2 cenvSdkDown 0 0 (by decide)

/-- C5 counterexample: in `tokensMultimodalImageInline`, the part sent to
`countTokens` is an `inlineData` object built by `fileToGenerativePart`
from local file bytes — a content part created by code of this
repository, received from no SDK response — so the claim that no payload
entity is created locally and every payload is passed through is false. -/
theorem c5_counterexample :
    ¬ payloadsPassedThrough
        ((tokensMultimodalImageInline cenvA) ⟨[], 0⟩).1.events := fun h =>
  absurd (h (Part.inlineData "b" "image/jpeg") (by decide)) (by decide)

/-- C5 amended: request payload entities are created by this code —
inline-data parts from local file bytes, text parts, role-tagged turns —
but each is built either from literals or by copying fields of an SDK
response verbatim, and is then handed to the SDK unmodified: the chat
routine forwards the `getHistory` response wholesale as the `contents` of
its `countTokens` request, the file-API image routine sends a `fileData`
part whose `uri` and `mimeType` are exactly those of its upload response,
and the inline image routine sends the `inlineData` part built by
`fileToGenerativePart` unchanged. -/
theorem c5_amended :
    ∀ (env : Env) (s : St), (∀ n, env.sdkFail n = false) →
      Event.countTokens (SdkReq.ofGenRequest { contents := env.chatHistory })
        ∈ (tokensChat env s).1.events ∧
      Event.countTokens (SdkReq.ofItems [ReqItem.str imagePrompt,
        ReqItem.part (Part.fileData (env.uploadResult s.calls).uri
          (env.uploadResult s.calls).mimeType)])
        ∈ (tokensMultimodalImageFileApi env s).1.events ∧
      Event.countTokens (SdkReq.ofItems [ReqItem.str imagePrompt,
        ReqItem.part (Part.inlineData
          (env.fileBase64 (mediaPath env ++ "/jetpack.jpg")) "image/jpeg")])
        ∈ (tokensMultimodalImageInline env s).1.events := by
  intro env s hok
  refine ⟨?_, ?_, ?_⟩
  · rw [tokensChat_run env s hok]
    simp [chatTrace]
  · rw [tokensMultimodalImageFileApi_run env s hok]
    simp [imageFileTrace]
  · rw [tokensMultimodalImageInline_run env s hok]
    simp [imageInlineTrace]

/-- C5 amended, witness at the concrete oracle. -/
theorem c5_witness :
    Event.countTokens (SdkReq.ofGenRequest { contents := cenvA.chatHistory })
      ∈ (tokensChat cenvA ⟨[], 0⟩).1.events ∧
    Event.countTokens (SdkReq.ofItems [ReqItem.str imagePrompt,
      ReqItem.part (Part.fileData (cenvA.uploadResult 0).uri
        (cenvA.uploadResult 0).mimeType)])
      ∈ (tokensMultimodalImageFileApi cenvA ⟨[], 0⟩).1.events ∧
    Event.countTokens (SdkReq.ofItems [ReqItem.str imagePrompt,
      ReqItem.part (Part.inlineData
        (cenvA.fileBase64 (mediaPath cenvA ++ "/jetpack.jpg")) "image/jpeg")])
      ∈ (tokensMultimodalImageInline cenvA ⟨[], 0⟩).1.events :=
  c5_amended cenvA ⟨[], 0⟩ (fun _ => rfl)

/-- C6: on the happy path `runAll` is exactly the sequential composition,
in the textual order of the source, of the eight routines' state
transformers, each of which appends a trace that is a function of the
oracle and of its own starting call counter only (never of events
accumulated by earlier routines); and each routine's trace begins by
constructing that routine's own client handle afresh. -/
theorem c6_runAll_sequences_routines :
    (∀ (env : Env) (fuel : Nat) (s : St) (j : Nat),
      (∀ n, env.sdkFail n = false) →
      (∀ m < j, env.fileState (s.calls + 12 + m) = FileState.processing) →
      env.fileState (s.calls + 12 + j) ≠ FileState.processing →
      j ≤ fuel →
      env.fileState (s.calls + 12 + j) ≠ FileState.failed →
      runAll env fuel s =
        (afterTools env (afterSystemInstruction env (afterCached env
          (afterVideo env j (afterImageFile env (afterImageInline env
            (afterChat env (afterTextOnly env s))))))), Res.ok ())) ∧
    (∀ (env : Env) (c j : Nat),
      (textOnlyTrace env c).head? = some (Event.newGenAI env.apiKey) ∧
      (chatTrace env c).head? = some (Event.newGenAI env.apiKey) ∧
      (imageInlineTrace env c).head? = some (Event.newGenAI env.apiKey) ∧
      (imageFileTrace env c).head? = some (Event.newFileManager env.apiKey) ∧
      (videoSuccessTrace env c j).head? = some (Event.newFileManager env.apiKey) ∧
      (cachedTrace env c).head? = some (Event.newFileManager env.apiKey) ∧
      (systemInstructionTrace env c).head? = some (Event.newGenAI env.apiKey) ∧
      (toolsTrace env c).head? = some (Event.newGenAI env.apiKey)) := by
  constructor
  · exact runAll_run
  · intro env c j
    exact ⟨rfl, rfl, rfl, rfl, rfl, rfl, rfl, rfl⟩

/-- C6 witness at the concrete oracle (video immediately `ACTIVE`, zero
loop iterations). -/
theorem c6_witness :
    runAll cenvA 0 ⟨[], 0⟩ =
      (afterTools cenvA (afterSystemInstruction cenvA (afterCached cenvA
        (afterVideo cenvA 0 (afterImageFile cenvA (afterImageInline cenvA
          (afterChat cenvA (afterTextOnly cenvA ⟨[], 0⟩))))))), Res.ok ()) :=
  c6_runAll_sequences_routines.1 cenvA 0 ⟨[], 0⟩ 0 (fun _ => rfl)
    (fun m hm => absurd hm (Nat.not_lt_zero m)) (by decide) (Nat.le.refl)
    (by decide)

/-- C7: under every oracle behaviour (failures, divergence, anything),
every client-constructor event of the whole run — `new GoogleGenerativeAI`,
`new GoogleAIFileManager`, `new GoogleAICacheManager` — carries exactly
the key read from the `API_KEY` environment variable; no other credential
source appears anywhere. -/
theorem c7_api_key_only :
    ∀ (env : Env) (fuel : Nat) (e : Event), e ∈ runTrace env fuel →
      ∀ k, constructionKey e = some k → k = env.apiKey := by
  intro env fuel
  refine runAll_trace_pred env fuel
    (fun e => ∀ k, constructionKey e = some k → k = env.apiKey) ?_ ?_
  · constructor <;> (intros; simp_all [constructionKey])
  · intro n k hk
    simp [constructionKey] at hk

/-- C7 witness: the first client constructed in a concrete run carries the
concrete oracle's API key. -/
theorem c7_witness : some "AKEY" = cenvA.apiKey := by
  refine c7_api_key_only cenvA 0 (Event.newGenAI (some "AKEY")) ?_
    (some "AKEY") rfl
  unfold runTrace
  rw [runAll_run cenvA 0 ⟨[], 0⟩ 0 (fun _ => rfl)
    (fun m hm => absurd hm (Nat.not_lt_zero m)) (by decide) (Nat.le.refl)
    (by decide)]
  simp [afterTools, afterSystemInstruction, afterCached, afterVideo,
    afterImageFile, afterImageInline, afterChat, afterTextOnly, textOnlyTrace,
    cenvA]

/-- C8: under every oracle behaviour, every event of the whole run is
console/stdout output, a sleep, an awaited SDK/network operation, local
SDK-object construction, or a read of a local file under the media
directory — and no run ever contains a local filesystem write. -/
theorem c8_no_local_writes :
    (∀ (env : Env) (fuel : Nat) (e : Event), e ∈ runTrace env fuel →
      localEffectOK env e) ∧
    (∀ (env : Env) (fuel : Nat) (p : String),
      Event.fsWrite p ∉ runTrace env fuel) := by
  have hmain : ∀ (env : Env) (fuel : Nat) (e : Event), e ∈ runTrace env fuel →
      localEffectOK env e := by
    intro env fuel
    refine runAll_trace_pred env fuel (localEffectOK env) ?_ ?_
    · constructor <;> (intros; simp [localEffectOK, isSdkCallB])
    · intro n
      simp [localEffectOK, isSdkCallB]
  refine ⟨hmain, ?_⟩
  intro env fuel p hmem
  have h := hmain env fuel _ hmem
  simp [localEffectOK, isSdkCallB] at h

/-- C8 witness: a concrete event of a concrete run is within the
local-effect discipline. -/
theorem c8_witness : localEffectOK cenvA (Event.newGenAI (some "AKEY")) := by
  refine c8_no_local_writes.1 cenvA 0 (Event.newGenAI (some "AKEY")) ?_
  unfold runTrace
  rw [runAll_run cenvA 0 ⟨[], 0⟩ 0 (fun _ => rfl)
    (fun m hm => absurd hm (Nat.not_lt_zero m)) (by decide) (Nat.le.refl)
    (by decide)]
  simp [afterTools, afterSystemInstruction, afterCached, afterVideo,
    afterImageFile, afterImageInline, afterChat, afterTextOnly, textOnlyTrace,
    cenvA]

/-- C9: when the poll loop exits in `FAILED` (no SDK failure), the routine
throws and its trace is exactly prefix plus loop events, which contain no
`deleteFile` whatsoever — the uploaded video is never deleted; when it
exits in any other state, the routine completes and the very last thing it
does is delete the uploaded file. -/
theorem c9_cleanup_only_on_success :
    ∀ (env : Env) (fuel : Nat) (s : St) (j : Nat),
      (∀ n, env.sdkFail n = false) →
      (∀ m < j, env.fileState (s.calls + 1 + m) = FileState.processing) →
      env.fileState (s.calls + 1 + j) ≠ FileState.processing →
      j ≤ fuel →
      ((env.fileState (s.calls + 1 + j) = FileState.failed →
        (tokensMultimodalVideoAudioFileApi env fuel s).2 =
          Res.thrown "Video processing failed." ∧
        (tokensMultimodalVideoAudioFileApi env fuel s).1.events =
          s.events ++ videoFailTrace env s.calls j ∧
        ∀ nm, Event.deleteFile nm ∉ videoFailTrace env s.calls j) ∧
       (env.fileState (s.calls + 1 + j) ≠ FileState.failed →
        (tokensMultimodalVideoAudioFileApi env fuel s).2 = Res.ok () ∧
        (tokensMultimodalVideoAudioFileApi env fuel s).1.events =
          s.events ++ videoSuccessTrace env s.calls j ∧
        (videoSuccessTrace env s.calls j).getLast? =
          some (Event.deleteFile (env.uploadResult s.calls).name))) := by
  intro env fuel s j hok hm hexit hfuel
  constructor
  · intro hfail
    rw [tokensVideo_run_failed env fuel s j hok hm hexit hfuel hfail]
    exact ⟨rfl, rfl, fun nm => videoFailTrace_no_delete env s.calls j nm⟩
  · intro hfail
    rw [tokensVideo_run_ok env fuel s j hok hm hexit hfuel hfail]
    exact ⟨rfl, rfl, videoSuccessTrace_getLast env s.calls j⟩

/-- C9 witness: on a concrete failing trace, the events stop at the loop
and contain no `deleteFile`. -/
theorem c9_witness :
    (tokensMultimodalVideoAudioFileApi cenvFailState 0 ⟨[], 0⟩).1.events =
      [] ++ videoFailTrace cenvFailState 0 0 ∧
    ∀ nm, Event.deleteFile nm ∉ videoFailTrace cenvFailState 0 0 :=
  ((c9_cleanup_only_on_success cenvFailState 0 ⟨[], 0⟩ 0 (fun _ => rfl)
      (fun m hm => absurd hm (Nat.not_lt_zero m)) (by decide) (Nat.le.refl)).1
    rfl).2

/-- C10: `tokensCachedContent` issues no `deleteFile` on any code path
under any oracle behaviour (events of that kind can only have been there
before the routine ran); and on the happy path its trace shows both
resource creations — the file upload and the cache creation — and a
`cacheDelete` of the created cache as the only deletion. -/
theorem c10_cached_deletes_only_cache :
    (∀ (env : Env) (s : St) (nm : String),
      Event.deleteFile nm ∈ (tokensCachedContent env s).1.events →
      Event.deleteFile nm ∈ s.events) ∧
    (∀ (env : Env) (s : St), (∀ n, env.sdkFail n = false) →
      (tokensCachedContent env s).1.events =
        s.events ++ cachedTrace env s.calls ∧
      Event.uploadFile (mediaPath env ++ "/a11.txt") "text/plain"
        ∈ cachedTrace env s.calls ∧
      Event.cacheCreate "models/gemini-1.5-flash-001" 600
        (cacheContents (env.uploadResult s.calls)) ∈ cachedTrace env s.calls ∧
      Event.cacheDelete (env.cacheResult (s.calls + 1)).name
        ∈ cachedTrace env s.calls ∧
      ∀ nm, Event.deleteFile nm ∉ cachedTrace env s.calls) := by
  constructor
  · intro env s nm hmem
    obtain ⟨⟨l, hl, hp, _⟩, _, _⟩ :=
      safe_tokensCachedContent env (fun e => ∀ nm', e ≠ Event.deleteFile nm')
        (by constructor <;> (intros; simp)) s
    rw [hl] at hmem
    rcases List.mem_append.mp hmem with h | h
    · exact h
    · exact absurd rfl (hp _ h nm)
  · intro env s hok
    rw [tokensCachedContent_run env s hok]
    refine ⟨rfl, ?_, ?_, ?_, fun nm => cachedTrace_no_delete env s.calls nm⟩
    · simp [cachedTrace]
    · simp [cachedTrace]
    · simp [cachedTrace]

/-- C10 witness: a `deleteFile` found after running the cached-content
routine was already present before it ran. -/
theorem c10_witness :
    Event.deleteFile "x" ∈ ([Event.deleteFile "x"] : List Event) :=
  c10_cached_deletes_only_cache.1 cenvA ⟨[Event.deleteFile "x"], 0⟩ "x"
    (by decide)

end CountTokensSample

